import Mathlib

/-!
Verification of the `ContextSession` session-middleware coordinator
(lib/contextsession.js of a koa-session style middleware).

The embedding models the coordinator state and its methods as pure
functions producing an updated state together with a trace of external
effects (store calls, cookie writes, id generation, scheduled event
emissions).  JavaScript truthiness on strings and numbers is modelled
explicitly where the source relies on it.  Asynchronous event delivery
via `setImmediate` is modelled by a distinguished `scheduleEmit` effect:
scheduled emissions never influence the returned value or state.
-/

namespace ContextSession

/-- One day in milliseconds, the default session max-age (`ONE_DAY`). -/
def ONE_DAY : Int := 24 * 60 * 60 * 1000

/-- JSON-representable primitive values stored under application keys of a
session payload. -/
inductive JVal
  | jstr : String → JVal
  | jnum : Int → JVal
  | jbool : Bool → JVal
deriving DecidableEq, Repr

/-- Serialized session payload: application key/value entries plus the two
reserved fields `_expire` and `_maxAge` (absent = `none`, mirroring
`undefined`).  This is the unit handed to `util.hash`, the codec and the
store. -/
structure SessJSON where
  entries : List (String × JVal)
  expireF : Option Int
  maxAgeF : Option Int
deriving DecidableEq, Repr

/-- Number of own enumerable keys of the serialized payload, as
`Object.keys(json).length` sees it. -/
def keysLen (j : SessJSON) : Nat :=
  j.entries.length + (if j.expireF.isSome then 1 else 0)
    + (if j.maxAgeF.isSome then 1 else 0)

/-- Canonical string rendering of a primitive value, input to the hash. -/
def JVal.render : JVal → String
  | .jstr s => "s:" ++ s
  | .jnum n => "n:" ++ toString n
  | .jbool b => "b:" ++ toString b

/-- Canonical string rendering of a serialized payload, input to the hash. -/
def renderJSON (j : SessJSON) : String :=
  let ents := j.entries.map (fun p => p.1 ++ "=" ++ p.2.render ++ ";")
  let res := String.join ents
  let res := res ++ (match j.expireF with
    | some e => "_expire=" ++ toString e ++ ";"
    | none => "")
  res ++ (match j.maxAgeF with
    | some m => "_maxAge=" ++ toString m ++ ";"
    | none => "")

/-- Modelled from the spec: `util.hash` (file `./util` is not under the
sources) — a deterministic hash of the serialized session used for dirty
checking.  The model hash is strictly positive, so "no baseline recorded"
is represented faithfully by `Option.none` (the source keeps `prevHash`
`undefined` until a hydrated load records one). -/
def hash (j : SessJSON) : Nat :=
  (renderJSON j).foldl (fun a c => a * 131 + c.toNat + 1) 7

/-- Modelled from the spec: the Session value object (file `./session` is
not under the sources).  Per the spec it carries the open mapping of
application keys, the reserved `_expire`/`_maxAge` fields, the transient
require-save flag and the `isNew` marker. -/
structure Session where
  entries : List (String × JVal)
  sExpire : Option Int
  sMaxAge : Option Int
  requireSave : Bool
  isNew : Bool
deriving DecidableEq, Repr

/-- Modelled from the spec: `toJSON()` produces the serializable mapping —
application keys plus `_expire`/`_maxAge` when set. -/
def Session.toJSON (s : Session) : SessJSON :=
  ⟨s.entries, s.sExpire, s.sMaxAge⟩

/-- Modelled from the spec: the `maxAge` accessor reads the reserved
`_maxAge` field. -/
def Session.maxAge (s : Session) : Option Int := s.sMaxAge

/-- A brand-new empty session (`new Session(ctx)` with no payload). -/
def sessionNew : Session := ⟨[], none, none, false, true⟩

/-- A session hydrated from a payload (`new Session(ctx, val)`). -/
def sessionFrom (p : SessJSON) : Session :=
  ⟨p.entries, p.expireF, p.maxAgeF, false, false⟩

/-- Session construction from an optional payload. -/
def mkSession : Option SessJSON → Session
  | none => sessionNew
  | some p => sessionFrom p

/-- The configured `opts.maxAge`: a number, the string sentinel
`"session"`, or absent (`undefined`). -/
inductive MaxAgeOpt
  | num : Int → MaxAgeOpt
  | sessionSentinel : MaxAgeOpt
  | unset : MaxAgeOpt
deriving DecidableEq, Repr

/-- JavaScript truthiness of the configured max-age (`opts.maxAge ? ...`):
the number `0` and `undefined` are falsy, the sentinel string is truthy. -/
def truthyMaxAge : MaxAgeOpt → Bool
  | .num n => n != 0
  | .sessionSentinel => true
  | .unset => false

/-- Outcome of the configured `opts.decode` codec on a cookie string: a
parsed payload, a thrown `SyntaxError`, or some other thrown error. -/
inductive DecodeRes
  | ok : SessJSON → DecodeRes
  | syntaxErr : DecodeRes
  | otherErr : String → DecodeRes

/-- The middleware configuration consumed by `ContextSession`.  Callback
options (`valid`, `beforeSave`, `decode`) are optional function fields;
`genid` is the configured external-key generator (modelled by the key it
returns). -/
structure Opts where
  key : String
  maxAge : MaxAgeOpt
  rolling : Bool
  renew : Bool
  genid : String
  validOpt : Option (SessJSON → Bool)
  beforeSave : Option (Session → Session)
  decode : String → DecodeRes

/-- The value written into the transport cookie: the empty string (a
clearing write), an external key, or an encoded payload
(`opts.encode(json)`). -/
inductive CookieVal
  | empty
  | keyVal : String → CookieVal
  | encoded : SessJSON → CookieVal
deriving DecidableEq, Repr

/-- Third argument handed to `store.set`: a number of milliseconds, or the
`"session"` sentinel string passed through unchanged. -/
inductive StoreTTL
  | num : Int → StoreTTL
  | sessionStr : StoreTTL
deriving DecidableEq, Repr

/-- External effects issued by the coordinator, in program order.
`scheduleEmit` records a `setImmediate`-deferred `session:<event>`
emission with its `{key, value}` data (the request context is elided). -/
inductive Effect
  | storeGet : String → MaxAgeOpt → Bool → Effect
  | storeSet : String → SessJSON → StoreTTL → Bool → Bool → Effect
  | storeDestroy : String → Effect
  | cookieSet : String → CookieVal → Effect
  | genidCall : Effect
  | scheduleEmit : String → Option String → Option SessJSON → Effect
deriving DecidableEq, Repr

/-- The session slot: `undefined` (never accessed), `false` (explicitly
cleared by a `null` assignment), or a live `Session` object. -/
inductive Slot
  | unset
  | cleared
  | live : Session → Slot
deriving DecidableEq, Repr

/-- Per-request coordinator state: configuration, whether a store
collaborator is configured, the session slot, the external key (absent =
`undefined`) and the previous-hash baseline (absent = `undefined`). -/
structure CS where
  opts : Opts
  hasStore : Bool
  slot : Slot
  externalKey : Option String
  prevHash : Option Nat

/-- JavaScript truthiness of an optional string (`undefined` and the empty
string are falsy). -/
def truthyKey : Option String → Bool
  | some s => s != ""
  | none => false

/-- The `create(val, externalKey)` method: attach a fresh or hydrated
session; when a store is configured, keep a truthy supplied key or else
generate a new one via `opts.genid()` (recorded as a `genidCall` effect). -/
def create (cs : CS) (val : Option SessJSON) (ek : Option String) :
    CS × List Effect :=
  if cs.hasStore then
    if truthyKey ek then
      ({ cs with externalKey := ek, slot := .live (mkSession val) }, [])
    else
      ({ cs with
          externalKey := some cs.opts.genid
          slot := .live (mkSession val) }, [.genidCall])
  else
    ({ cs with slot := .live (mkSession val) }, [])

/-- The expiry test of `valid`: `value._expire && value._expire < Date.now()`
with JavaScript truthiness on `_expire` (zero is falsy). -/
def expiredAt (v : SessJSON) (now : Int) : Bool :=
  match v.expireF with
  | some e => e != 0 && decide (e < now)
  | none => false

/-- The `valid(value, key)` method: returns whether the payload is usable
and the list of deferred notifications it scheduled (via `emit`, i.e.
`setImmediate`).  Checks, in order: falsy payload (`missed`), expiry
(`expired`), the optional configured validator (`invalid`). -/
def validCheck (cs : CS) (value : Option SessJSON) (key : Option String)
    (now : Int) : Bool × List Effect :=
  match value with
  | none => (false, [.scheduleEmit "missed" key none])
  | some v =>
    if expiredAt v now then
      (false, [.scheduleEmit "expired" key (some v)])
    else
      match cs.opts.validOpt with
      | some f =>
        if f v then (true, []) else (false, [.scheduleEmit "invalid" key (some v)])
      | none => (true, [])

/-- The `initFromExternal()` method.  `cookieVal` is what
`ctx.cookies.get(opts.key, opts)` returned and `storeResult` is what
`store.get` resolves to when consulted. -/
def initFromExternal (cs : CS) (cookieVal : Option String)
    (storeResult : Option SessJSON) (now : Int) : CS × List Effect :=
  if !truthyKey cookieVal then
    create cs none none
  else
    let k := cookieVal.getD ""
    let getEff := Effect.storeGet k cs.opts.maxAge cs.opts.rolling
    let v := validCheck cs storeResult (some k) now
    if !v.1 then
      let c := create cs none none
      (c.1, getEff :: v.2 ++ c.2)
    else
      let c := create cs storeResult (some k)
      ({ c.1 with prevHash := some (hash (mkSession storeResult).toJSON) },
       getEff :: v.2 ++ c.2)

/-- An error re-raised out of `initFromCookie`, annotated (as
`err.headers`) with the set-cookie response header produced by the
clearing write that precedes the throw. -/
structure ThrownErr where
  msg : String
  setCookieHeader : Option (String × CookieVal)
deriving DecidableEq, Repr

/-- The `initFromCookie()` method.  `cookieVal` is what
`ctx.cookies.get(opts.key, opts)` returned.  A non-`SyntaxError` decode
failure clears the cookie, annotates the error with the resulting
set-cookie header and re-raises; a `SyntaxError` falls through to a
brand-new session. -/
def initFromCookie (cs : CS) (cookieVal : Option String) (now : Int) :
    Except ThrownErr CS × List Effect :=
  if !truthyKey cookieVal then
    let c := create cs none none
    (.ok c.1, c.2)
  else
    let raw := cookieVal.getD ""
    match cs.opts.decode raw with
    | .otherErr m =>
      (.error ⟨m, some (cs.opts.key, .empty)⟩, [.cookieSet cs.opts.key .empty])
    | .syntaxErr =>
      let c := create cs none none
      (.ok c.1, c.2)
    | .ok j =>
      let v := validCheck cs (some j) none now
      if !v.1 then
        let c := create cs none none
        (.ok c.1, v.2 ++ c.2)
      else
        let c := create cs (some j) none
        (.ok { c.1 with prevHash := some (hash (mkSession (some j)).toJSON) },
         v.2 ++ c.2)

/-- Values an application can assign to the session slot, at the
granularity `set` distinguishes: `null`, an object payload, or a value of
any other runtime type (carried with its `typeof` name). -/
inductive SetVal
  | nullV
  | objV : SessJSON → SetVal
  | otherV : String → SetVal
deriving Repr

/-- The `set(val)` setter: `null` clears the slot; an object is handed to
`create` together with the current external key; anything else throws. -/
def setSession (cs : CS) (v : SetVal) : Except String (CS × List Effect) :=
  match v with
  | .nullV => .ok ({ cs with slot := .cleared }, [])
  | .objV p => .ok (create cs (some p) cs.externalKey)
  | .otherV _ => .error "this.session can only be set as null or an object."

/-- The effective max-age computed at the top of `save`:
`opts.maxAge ? opts.maxAge : ONE_DAY`. -/
inductive EffMaxAge
  | num : Int → EffMaxAge
  | sessionStr : EffMaxAge
deriving DecidableEq, Repr

/-- Effective max-age: the configured value when truthy, otherwise one
day. -/
def effMaxAge : MaxAgeOpt → EffMaxAge
  | .num n => if n != 0 then .num n else .num ONE_DAY
  | .sessionSentinel => .sessionStr
  | .unset => .num ONE_DAY

/-- Payload actually persisted by `save`: unchanged under the session
sentinel, otherwise stamped with `_expire = maxAge + now` and
`_maxAge = maxAge`. -/
def savePayload (ma : EffMaxAge) (json : SessJSON) (now : Int) : SessJSON :=
  match ma with
  | .sessionStr => json
  | .num m => { json with expireF := some (m + now), maxAgeF := some m }

/-- Configuration after `save`: under the session sentinel the shared
`opts.maxAge` is overwritten with `undefined`, otherwise untouched. -/
def saveOpts (ma : EffMaxAge) (o : Opts) : Opts :=
  match ma with
  | .sessionStr => { o with maxAge := .unset }
  | .num _ => o

/-- Store TTL passed as the third argument of `store.set`: numeric
effective max-age plus a 10 s skew; the sentinel string is passed through
(`typeof maxAge === "number"` fails on it). -/
def storeTTL : EffMaxAge → StoreTTL
  | .num m => .num (m + 10000)
  | .sessionStr => .sessionStr

/-- The `save(changed)` method: stamp (or not) the payload, then either
persist to the external store and write the key into the cookie, or
encode the payload directly into the cookie. -/
def save (cs : CS) (s : Session) (changed : Bool) (now : Int) :
    CS × List Effect :=
  let json := s.toJSON
  let ma := effMaxAge cs.opts.maxAge
  let json2 := savePayload ma json now
  let opts2 := saveOpts ma cs.opts
  let cs2 := { cs with opts := opts2 }
  match cs.externalKey with
  | some k =>
    if k != "" then
      (cs2, [.storeSet k json2 (storeTTL ma) changed cs.opts.rolling,
             .cookieSet cs.opts.key (.keyVal k)])
    else
      (cs2, [.cookieSet cs.opts.key (.encoded json2)])
  | none =>
    (cs2, [.cookieSet cs.opts.key (.encoded json2)])

/-- The `remove()` method: destroy the store record when a truthy external
key exists, then always clear the transport cookie. -/
def remove (cs : CS) : List Effect :=
  (match cs.externalKey with
   | some k => if k != "" then [.storeDestroy k] else []
   | none => []) ++ [.cookieSet cs.opts.key .empty]

/-- Whether the renew branch of `_shouldSaveSession` fires:
`expire && maxAge && expire - Date.now() < maxAge / 2` with JavaScript
truthiness, the halving expressed exactly over the integers. -/
def renewDue (s : Session) (now : Int) : Bool :=
  match s.sExpire, s.maxAge with
  | some e, some m => e != 0 && m != 0 && decide (2 * (e - now) < m)
  | _, _ => false

/-- The `_shouldSaveSession()` decision, returning the reason string
(`""` meaning no save). -/
def shouldSaveSession (opts : Opts) (prevHash : Option Nat) (s : Session)
    (now : Int) : String :=
  if s.requireSave then "force"
  else
    let json := s.toJSON
    if prevHash = none ∧ keysLen json = 0 then ""
    else if prevHash ≠ some (hash json) then "changed"
    else if opts.rolling then "rolling"
    else if opts.renew then
      (if renewDue s now then "renew" else "")
    else ""

/-- The `commit()` method: dispatch on the slot, consult
`_shouldSaveSession`, run the optional `beforeSave` hook, then save. -/
def commit (cs : CS) (now : Int) : CS × List Effect :=
  match cs.slot with
  | .unset => (cs, [])
  | .cleared => (cs, remove cs)
  | .live s =>
    let reason := shouldSaveSession cs.opts cs.prevHash s now
    if reason = "" then (cs, [])
    else
      let s2 := match cs.opts.beforeSave with
        | some f => f s
        | none => s
      save { cs with slot := .live s2 } s2 (reason = "changed") now

/-- The action `commit` selects, summarizing its dispatch: no action,
removal, or a save with the reason `_shouldSaveSession` returned. -/
inductive SpecAction
  | noAction
  | removal
  | saveReason : String → SpecAction
deriving DecidableEq, Repr

/-- The action `commit` chooses, read off its control flow (lines
dispatching on the slot and on the reason). -/
def commitAction (cs : CS) (now : Int) : SpecAction :=
  match cs.slot with
  | .unset => .noAction
  | .cleared => .removal
  | .live s =>
    let reason := shouldSaveSession cs.opts cs.prevHash s now
    if reason = "" then .noAction else .saveReason reason

/-- First matching rule of an ordered decision table. -/
def firstMatch {α : Type} : List (Bool × α) → Option α
  | [] => none
  | (b, a) :: rest => if b then some a else firstMatch rest

/-- The commit decision table as the specification states it: an ordered
list of guarded rules, first match wins, defaulting to no action. -/
def specCommitDecision (opts : Opts) (prevHash : Option Nat) (slot : Slot)
    (now : Int) : SpecAction :=
  match slot with
  | .unset => .noAction
  | .cleared => .removal
  | .live s =>
    let json := s.toJSON
    (firstMatch [
      (s.requireSave, SpecAction.saveReason "force"),
      (prevHash.isNone && keysLen json == 0, SpecAction.noAction),
      (decide (prevHash ≠ some (hash json)), SpecAction.saveReason "changed"),
      (opts.rolling, SpecAction.saveReason "rolling"),
      (opts.renew && renewDue s now, SpecAction.saveReason "renew")
    ]).getD .noAction

/-- Effect classifiers used to count store and cookie operations. -/
def isStoreSet : Effect → Bool
  | .storeSet _ _ _ _ _ => true
  | _ => false

def isStoreDestroy : Effect → Bool
  | .storeDestroy _ => true
  | _ => false

def isCookieClear : Effect → Bool
  | .cookieSet _ .empty => true
  | _ => false

def isEncodedWrite : Effect → Bool
  | .cookieSet _ (.encoded _) => true
  | _ => false

def isGenid : Effect → Bool
  | .genidCall => true
  | _ => false

end ContextSession

namespace ContextSession

/-- C2: at commit time the action is chosen by the ordered decision table,
first match wins — unset slot, cleared slot, force flag, new-and-empty,
changed hash, rolling, renew, otherwise nothing — and a session created
from an empty payload and committed without mutation performs no store or
cookie write. -/
theorem commit_decision_table :
    (∀ (cs : CS) (now : Int),
      commitAction cs now = specCommitDecision cs.opts cs.prevHash cs.slot now)
    ∧ (∀ (o : Opts) (b : Bool) (ek : Option String) (now : Int),
      (commit ⟨o, b, .live (mkSession (some ⟨[], none, none⟩)), ek, none⟩ now).2
        = []) := by
  constructor
  · intro cs now
    cases hs : cs.slot with
    | unset => simp [commitAction, specCommitDecision, hs]
    | cleared => simp [commitAction, specCommitDecision, hs]
    | live s =>
      simp only [commitAction, specCommitDecision, shouldSaveSession, hs,
        firstMatch, Option.getD]
      by_cases h1 : s.requireSave
      · simp [h1]
      · simp only [h1, if_false, Bool.false_eq_true]
        by_cases h2 : cs.prevHash = none ∧ keysLen s.toJSON = 0
        · have h2b : (cs.prevHash.isNone && (keysLen s.toJSON == 0)) = true := by
            simp [h2.1, h2.2]
          simp [h2, h2b]
        · have h2b : (cs.prevHash.isNone && (keysLen s.toJSON == 0)) = false := by
            rw [Bool.eq_false_iff]
            intro h
            apply h2
            simp only [Bool.and_eq_true, Option.isNone_iff_eq_none,
              beq_iff_eq] at h
            exact h
          simp only [h2, if_false, h2b, Bool.false_eq_true]
          by_cases h3 : cs.prevHash ≠ some (hash s.toJSON)
          · simp [h3]
          · simp only [h3, if_false, decide_eq_true_eq, decide_eq_false h3,
              Bool.false_eq_true]
            by_cases h4 : cs.opts.rolling
            · simp [h4]
            · simp only [h4, if_false, Bool.false_eq_true]
              by_cases h5 : cs.opts.renew
              · by_cases h6 : renewDue s now
                · simp [h5, h6]
                · simp [h5, h6]
              · have h5b : cs.opts.renew = false := by
                  rw [Bool.eq_false_iff]
                  exact h5
                simp [h5b]
  · intro o b ek now
    rfl

end ContextSession

namespace ContextSession

/-- C1 counterexample: with an external store configured and no
external-key cookie on the request, `initFromExternal` calls the
configured `genid` generator once during initialization (inside `create`),
even though the created session ends up empty and unmutated and the
subsequent commit is a no-op — refuting the claim that `genid` is never
called during `initFromExternal` in that situation. -/
theorem genid_deferred_cex :
    ((initFromExternal
        ⟨⟨"sess", .unset, false, false, "gid1", none, none, fun _ => .syntaxErr⟩,
          true, .unset, none, none⟩ none none 0).2.countP isGenid = 1)
    ∧ ((commit (initFromExternal
        ⟨⟨"sess", .unset, false, false, "gid1", none, none, fun _ => .syntaxErr⟩,
          true, .unset, none, none⟩ none none 0).1 0).2 = []) := by
  constructor
  · rfl
  · rfl

/-- C1 amended: when an external store is configured and no truthy
external-key cookie is present, `initFromExternal` eagerly generates the
fresh external key, calling `genid` exactly once during initialization
(not deferred to commit); the session it creates is brand-new and empty,
so a subsequent unmutated commit performs no store or cookie write even
though the key was already generated. -/
theorem genid_eager_in_initFromExternal (cs : CS) (cookieVal : Option String)
    (sr : Option SessJSON) (now now2 : Int)
    (hstore : cs.hasStore = true) (hc : truthyKey cookieVal = false)
    (hp : cs.prevHash = none) :
    ((initFromExternal cs cookieVal sr now).2.countP isGenid = 1)
    ∧ ((initFromExternal cs cookieVal sr now).1.slot = .live sessionNew)
    ∧ ((initFromExternal cs cookieVal sr now).1.externalKey
        = some cs.opts.genid)
    ∧ ((commit (initFromExternal cs cookieVal sr now).1 now2).2 = []) := by
  have hmain : initFromExternal cs cookieVal sr now
      = ({ cs with
            externalKey := some cs.opts.genid
            slot := .live sessionNew }, [.genidCall]) := by
    cases cookieVal with
    | none =>
      simp only [initFromExternal, truthyKey, Bool.not_false, if_true, create,
        hstore, mkSession]
      rfl
    | some s =>
      have hs : s = "" := by
        simpa [truthyKey] using hc
      subst hs
      simp only [initFromExternal, truthyKey, Bool.not_false, if_true, create,
        hstore, mkSession]
      rfl
  refine ⟨?_, ?_, ?_, ?_⟩
  · rw [hmain]; rfl
  · rw [hmain]
  · rw [hmain]
  · rw [hmain, hp]
    rfl

/-- C1 witness for the amended theorem, at a concrete coordinator with a
store configured and an absent cookie. -/
theorem genid_eager_witness :
    ((initFromExternal
        ⟨⟨"k", .num 5000, true, true, "g7", none, none, fun _ => .syntaxErr⟩,
          true, .unset, none, none⟩ (some "") none 3).2.countP isGenid = 1)
    ∧ ((commit (initFromExternal
        ⟨⟨"k", .num 5000, true, true, "g7", none, none, fun _ => .syntaxErr⟩,
          true, .unset, none, none⟩ (some "") none 3).1 9).2 = []) := by
  have h := genid_eager_in_initFromExternal
    ⟨⟨"k", .num 5000, true, true, "g7", none, none, fun _ => .syntaxErr⟩,
      true, .unset, none, none⟩ (some "") none 3 9 rfl rfl rfl
  exact ⟨h.1, h.2.2.2⟩

end ContextSession

namespace ContextSession

/-- C3 counterexample: a payload whose reserved `_expire` field is set to
`0` — which is earlier than the current time `5` — is nevertheless
accepted by `valid` with no notification scheduled, because the source
guards the expiry comparison with JavaScript truthiness
(`value._expire && ...`) and `0` is falsy.  This refutes the claim that
every payload whose `_expire` is set and earlier than now is rejected
with an `expired` notification. -/
theorem valid_expired_zero_cex :
    (SessJSON.mk [("a", .jnum 1)] (some 0) none).expireF = some 0
    ∧ ((0 : Int) < 5)
    ∧ validCheck
        ⟨⟨"sess", .unset, false, false, "gid1", none, none, fun _ => .syntaxErr⟩,
          false, .unset, none, none⟩
        (some ⟨[("a", .jnum 1)], some 0, none⟩) none 5 = (true, []) := by
  refine ⟨rfl, by norm_num, rfl⟩

/-- C3 amended: `valid(payload, key)` returns false and schedules exactly
one deferred notification, checked in order: a falsy payload schedules
`missed`; a payload whose `_expire` is set to a truthy (nonzero) value
earlier than the current time schedules `expired`; a payload rejected by
the configured validator schedules `invalid` — each carrying the key and
value; otherwise it returns true and schedules nothing.  Notifications are
modelled as `scheduleEmit` effects, decoupled from the returned value. -/
theorem valid_check_characterization (cs : CS) (key : Option String)
    (now : Int) :
    (validCheck cs none key now = (false, [.scheduleEmit "missed" key none]))
    ∧ (∀ (v : SessJSON) (e : Int), v.expireF = some e → e ≠ 0 → e < now →
        validCheck cs (some v) key now
          = (false, [.scheduleEmit "expired" key (some v)]))
    ∧ (∀ (v : SessJSON) (f : SessJSON → Bool), expiredAt v now = false →
        cs.opts.validOpt = some f → f v = false →
        validCheck cs (some v) key now
          = (false, [.scheduleEmit "invalid" key (some v)]))
    ∧ (∀ v : SessJSON, expiredAt v now = false →
        (cs.opts.validOpt = none
          ∨ ∃ f, cs.opts.validOpt = some f ∧ f v = true) →
        validCheck cs (some v) key now = (true, []))
    ∧ (∀ v : Option SessJSON, (validCheck cs v key now).1 = false →
        (validCheck cs v key now).2.length = 1)
    ∧ (∀ v : Option SessJSON, (validCheck cs v key now).1 = true →
        (validCheck cs v key now).2 = []) := by
  refine ⟨rfl, ?_, ?_, ?_, ?_, ?_⟩
  · intro v e he hne hlt
    have hexp : expiredAt v now = true := by
      simp [expiredAt, he, hne, hlt]
    simp [validCheck, hexp]
  · intro v f hexp hopt hf
    simp [validCheck, hexp, hopt, hf]
  · intro v hexp hval
    rcases hval with h | ⟨f, hopt, hf⟩
    · simp [validCheck, hexp, h]
    · simp [validCheck, hexp, hopt, hf]
  · intro v hfalse
    cases v with
    | none => rfl
    | some v =>
      by_cases hexp : expiredAt v now
      · simp [validCheck, hexp]
      · simp only [validCheck, hexp, Bool.false_eq_true, if_false] at hfalse ⊢
        cases hopt : cs.opts.validOpt with
        | none => simp [hopt] at hfalse
        | some f =>
          by_cases hf : f v
          · simp [hopt, hf] at hfalse
          · simp [hopt, hf]
  · intro v htrue
    cases v with
    | none => simp [validCheck] at htrue
    | some v =>
      by_cases hexp : expiredAt v now
      · simp [validCheck, hexp] at htrue
      · simp only [validCheck, hexp, Bool.false_eq_true, if_false] at htrue ⊢
        cases hopt : cs.opts.validOpt with
        | none => simp [hopt]
        | some f =>
          by_cases hf : f v
          · simp [hopt, hf]
          · simp [hopt, hf] at htrue

/-- C3 witness for the amended theorem: an expired payload with a nonzero
`_expire` in the past is rejected with exactly one scheduled `expired`
notification. -/
theorem valid_check_witness :
    validCheck
      ⟨⟨"sess", .unset, false, false, "gid1", none, none, fun _ => .syntaxErr⟩,
        false, .unset, none, none⟩
      (some ⟨[("a", .jnum 1)], some 3, none⟩) (some "k1") 5
      = (false, [.scheduleEmit "expired" (some "k1")
          (some ⟨[("a", .jnum 1)], some 3, none⟩)]) :=
  (valid_check_characterization
    ⟨⟨"sess", .unset, false, false, "gid1", none, none, fun _ => .syntaxErr⟩,
      false, .unset, none, none⟩ (some "k1") 5).2.1
    ⟨[("a", .jnum 1)], some 3, none⟩ 3 rfl (by norm_num) (by norm_num)

end ContextSession

namespace ContextSession

/-- C4: during `initFromCookie`, a non-`SyntaxError` thrown by the
configured decode function clears the transport cookie (one clearing
write of the empty value), annotates the error with the resulting
set-cookie response header and re-raises it; a `SyntaxError` is swallowed
and a brand-new empty session is created instead. -/
theorem initFromCookie_decode_failure (cs : CS) (raw m : String) (now : Int)
    (hraw : raw ≠ "") :
    (cs.opts.decode raw = .otherErr m →
      initFromCookie cs (some raw) now
        = (.error ⟨m, some (cs.opts.key, .empty)⟩,
           [.cookieSet cs.opts.key .empty]))
    ∧ (cs.hasStore = false → cs.opts.decode raw = .syntaxErr →
      initFromCookie cs (some raw) now
        = (.ok { cs with slot := .live sessionNew }, [])) := by
  have htr : truthyKey (some raw) = true := by
    simp [truthyKey, hraw]
  constructor
  · intro hdec
    simp only [initFromCookie, htr, Bool.not_true, Bool.false_eq_true,
      if_false, Option.getD, hdec]
  · intro hstore hdec
    simp only [initFromCookie, htr, Bool.not_true, Bool.false_eq_true,
      if_false, Option.getD, hdec, create, hstore, mkSession]

/-- C4 witness: a concrete coordinator whose codec throws a non-parse
error on the cookie string, and one whose codec throws a parse error. -/
theorem initFromCookie_decode_failure_witness :
    (initFromCookie
        ⟨⟨"sess", .unset, false, false, "gid1", none, none,
            fun _ => .otherErr "boom"⟩, false, .unset, none, none⟩
        (some "badcookie") 0
      = (.error ⟨"boom", some ("sess", .empty)⟩,
         [.cookieSet "sess" .empty]))
    ∧ (initFromCookie
        ⟨⟨"sess", .unset, false, false, "gid1", none, none,
            fun _ => .syntaxErr⟩, false, .unset, none, none⟩
        (some "badcookie") 0
      = (.ok ⟨⟨"sess", .unset, false, false, "gid1", none, none,
            fun _ => .syntaxErr⟩, false, .live sessionNew, none, none⟩, [])) :=
  ⟨(initFromCookie_decode_failure
      ⟨⟨"sess", .unset, false, false, "gid1", none, none,
          fun _ => .otherErr "boom"⟩, false, .unset, none, none⟩
      "badcookie" "boom" 0 (by simp)).1 rfl,
   (initFromCookie_decode_failure
      ⟨⟨"sess", .unset, false, false, "gid1", none, none,
          fun _ => .syntaxErr⟩, false, .unset, none, none⟩
      "badcookie" "boom" 0 (by simp)).2 rfl rfl⟩

/-- C5: the session setter clears the slot on `null`, replaces the session
object from an object payload while preserving an already established
external key (and leaving the slot construction identical in cookie
mode), and rejects any other value type with a synchronous error, the
state being returned unchanged only through the thrown error. -/
theorem set_value_trichotomy (cs : CS) (p : SessJSON) (t : String) :
    (setSession cs .nullV = .ok ({ cs with slot := .cleared }, []))
    ∧ (truthyKey cs.externalKey = true →
        setSession cs (.objV p)
          = .ok ({ cs with slot := .live (sessionFrom p) }, []))
    ∧ (cs.hasStore = false →
        setSession cs (.objV p)
          = .ok ({ cs with slot := .live (sessionFrom p) }, []))
    ∧ (setSession cs (.otherV t)
        = .error "this.session can only be set as null or an object.") := by
  refine ⟨rfl, ?_, ?_, rfl⟩
  · intro htr
    simp only [setSession, create, htr, if_true, mkSession]
    cases cs.hasStore with
    | true => rfl
    | false => rfl
  · intro hstore
    simp only [setSession, create, hstore, Bool.false_eq_true, if_false,
      mkSession]

/-- C5 witness: a coordinator with an established external key keeps that
key when the session is replaced by an object payload, and the other two
assignment outcomes at concrete inputs. -/
theorem set_value_witness :
    (setSession
        ⟨⟨"sess", .unset, false, false, "gid1", none, none,
            fun _ => .syntaxErr⟩, true, .unset, some "k9", none⟩
        (.objV ⟨[("u", .jstr "a")], none, none⟩)
      = .ok (⟨⟨"sess", .unset, false, false, "gid1", none, none,
            fun _ => .syntaxErr⟩, true,
          .live (sessionFrom ⟨[("u", .jstr "a")], none, none⟩),
          some "k9", none⟩, []))
    ∧ (setSession
        ⟨⟨"sess", .unset, false, false, "gid1", none, none,
            fun _ => .syntaxErr⟩, true, .unset, some "k9", none⟩
        (.otherV "number")
      = .error "this.session can only be set as null or an object.") :=
  ⟨(set_value_trichotomy
      ⟨⟨"sess", .unset, false, false, "gid1", none, none,
          fun _ => .syntaxErr⟩, true, .unset, some "k9", none⟩
      ⟨[("u", .jstr "a")], none, none⟩ "number").2.1 rfl,
   (set_value_trichotomy
      ⟨⟨"sess", .unset, false, false, "gid1", none, none,
          fun _ => .syntaxErr⟩, true, .unset, some "k9", none⟩
      ⟨[("u", .jstr "a")], none, none⟩ "number").2.2.2⟩

/-- C6: committing a coordinator whose slot was set to `null` performs the
removal protocol: exactly one `store.destroy` call if and only if a
truthy external key exists (with that key), exactly one clearing cookie
write of the configured cookie name, no `store.set` call and no encoded
cookie-value write. -/
theorem commit_cleared_removal (cs : CS) (now : Int)
    (h : cs.slot = .cleared) :
    ((commit cs now).2.countP (fun e => isStoreDestroy e)
        = (if truthyKey cs.externalKey then 1 else 0))
    ∧ (∀ k : String, cs.externalKey = some k → k ≠ "" →
        Effect.storeDestroy k ∈ (commit cs now).2)
    ∧ ((commit cs now).2.countP (fun e => isCookieClear e) = 1)
    ∧ (Effect.cookieSet cs.opts.key .empty ∈ (commit cs now).2)
    ∧ ((commit cs now).2.countP (fun e => isStoreSet e) = 0)
    ∧ ((commit cs now).2.countP (fun e => isEncodedWrite e) = 0) := by
  have hc : commit cs now = (cs, remove cs) := by
    rw [show commit cs now = match cs.slot with
      | .unset => (cs, [])
      | .cleared => (cs, remove cs)
      | .live s =>
        let reason := shouldSaveSession cs.opts cs.prevHash s now
        if reason = "" then (cs, [])
        else
          let s2 := match cs.opts.beforeSave with
            | some f => f s
            | none => s
          save { cs with slot := .live s2 } s2 (reason = "changed") now
      from rfl, h]
  cases hek : cs.externalKey with
  | none =>
    rw [hc]
    simp only [remove, hek]
    refine ⟨rfl, ?_, rfl, ?_, rfl, rfl⟩
    · intro k2 hk2 _
      exact absurd hk2 (by simp)
    · exact List.mem_singleton.mpr rfl
  | some k =>
    by_cases hk : k = ""
    · subst hk
      rw [hc]
      simp only [remove, hek]
      refine ⟨rfl, ?_, rfl, ?_, rfl, rfl⟩
      · intro k2 hk2 hne
        injection hk2 with h2
        exact absurd h2.symm hne
      · exact List.mem_singleton.mpr rfl
    · have hkb : (k != "") = true := by simp [hk]
      rw [hc]
      simp only [remove, hek, hkb, if_true, truthyKey]
      refine ⟨rfl, ?_, rfl, ?_, rfl, rfl⟩
      · intro k2 hk2 _
        injection hk2 with h2
        subst h2
        simp
      · simp

/-- C6 witness: a cleared coordinator with a truthy external key destroys
that key once, clears the cookie once, and issues no store or encoded
write. -/
theorem commit_cleared_witness :
    ((commit ⟨⟨"sess", .num 1000, false, false, "g", none, none,
        fun _ => .syntaxErr⟩, true, .cleared, some "k3", none⟩ 0).2.countP
      (fun e => isStoreDestroy e) = 1)
    ∧ ((commit ⟨⟨"sess", .num 1000, false, false, "g", none, none,
        fun _ => .syntaxErr⟩, true, .cleared, some "k3", none⟩ 0).2.countP
      (fun e => isCookieClear e) = 1) := by
  have h := commit_cleared_removal
    ⟨⟨"sess", .num 1000, false, false, "g", none, none,
        fun _ => .syntaxErr⟩, true, .cleared, some "k3", none⟩ 0 rfl
  exact ⟨h.1, h.2.2.1⟩

end ContextSession

namespace ContextSession

/-- C7 counterexample: with a configured max-age of `0`, the effective
max-age used by `save` is one day, not the configured value, because the
source computes `opts.maxAge ? opts.maxAge : ONE_DAY` and `0` is falsy in
JavaScript — and the persisted payload is stamped with the one-day value.
This refutes the claim that the effective max-age is the configured value
whenever one is configured. -/
theorem effective_maxage_zero_cex :
    effMaxAge (.num 0) = .num 86400000
    ∧ ((86400000 : Int) ≠ 0)
    ∧ (save ⟨⟨"sess", .num 0, false, false, "g", none, none,
          fun _ => .syntaxErr⟩, false, .live sessionNew, none, none⟩
        sessionNew false 7).2
      = [.cookieSet "sess"
          (.encoded ⟨[], some 86400007, some 86400000⟩)] := by
  refine ⟨rfl, by norm_num, rfl⟩

/-- C7 amended: in `save`, the effective max-age is the configured value
when it is truthy (a nonzero number or the sentinel) and one day
(24*60*60*1000 ms) when it is absent or zero; under the `"session"`
sentinel neither `_expire` nor `_maxAge` is stamped into the serialized
payload; otherwise the payload is stamped with `_expire = maxAge + now`
and `_maxAge = maxAge` before persistence. -/
theorem save_maxage_stamping (o : MaxAgeOpt) (j : SessJSON) (now : Int) :
    (effMaxAge .unset = .num ONE_DAY)
    ∧ (effMaxAge (.num 0) = .num ONE_DAY)
    ∧ (∀ n : Int, n ≠ 0 → effMaxAge (.num n) = .num n)
    ∧ (savePayload (effMaxAge .sessionSentinel) j now = j)
    ∧ (∀ m : Int, effMaxAge o = .num m →
        savePayload (effMaxAge o) j now
          = { j with expireF := some (m + now), maxAgeF := some m })
    ∧ (∀ (cs : CS) (s : Session) (changed : Bool), cs.externalKey = none →
        (save cs s changed now).2
          = [.cookieSet cs.opts.key
              (.encoded (savePayload (effMaxAge cs.opts.maxAge)
                s.toJSON now))]) := by
  refine ⟨rfl, rfl, ?_, rfl, ?_, ?_⟩
  · intro n hn
    simp [effMaxAge, hn]
  · intro m hm
    rw [hm]
    rfl
  · intro cs s changed hek
    rw [show save cs s changed now =
        (let json := s.toJSON
         let ma := effMaxAge cs.opts.maxAge
         let json2 := savePayload ma json now
         let opts2 := saveOpts ma cs.opts
         let cs2 := { cs with opts := opts2 }
         match cs.externalKey with
         | some k =>
           if k != "" then
             (cs2, [.storeSet k json2 (storeTTL ma) changed cs.opts.rolling,
                    .cookieSet cs.opts.key (.keyVal k)])
           else
             (cs2, [.cookieSet cs.opts.key (.encoded json2)])
         | none =>
           (cs2, [.cookieSet cs.opts.key (.encoded json2)]))
      from rfl, hek]

/-- C7 witness for the amended theorem, at a configured max-age of five
seconds and at the sentinel. -/
theorem save_maxage_witness :
    (savePayload (effMaxAge (.num 5000)) ⟨[("a", .jnum 1)], none, none⟩ 100
      = ⟨[("a", .jnum 1)], some 5100, some 5000⟩)
    ∧ (savePayload (effMaxAge .sessionSentinel)
        ⟨[("a", .jnum 1)], some 9, some 8⟩ 100
      = ⟨[("a", .jnum 1)], some 9, some 8⟩) :=
  ⟨(save_maxage_stamping (.num 5000) ⟨[("a", .jnum 1)], none, none⟩ 100).2.2.2.2.1
      5000 rfl,
   (save_maxage_stamping .sessionSentinel ⟨[("a", .jnum 1)], some 9, some 8⟩
      100).2.2.2.1⟩

/-- C8: with renew configured and no earlier reason firing (force flag
unset, previous-hash baseline equal to the current serialized hash,
rolling off), `_shouldSaveSession` returns `renew` exactly when the
session has a truthy `_expire` and a truthy max-age and the remaining
time-to-expiry is strictly less than half the max-age; when the renew
condition fails, the commit performs no effects at all. -/
theorem renew_decision (opts : Opts) (s : Session) (b : Bool)
    (ek : Option String) (now : Int)
    (hRenew : opts.renew = true) (hRolling : opts.rolling = false)
    (hForce : s.requireSave = false) :
    (shouldSaveSession opts (some (hash s.toJSON)) s now = "renew"
      ↔ ∃ e m : Int, s.sExpire = some e ∧ s.sMaxAge = some m
          ∧ e ≠ 0 ∧ m ≠ 0 ∧ 2 * (e - now) < m)
    ∧ (renewDue s now = false →
        (commit ⟨opts, b, .live s, ek, some (hash s.toJSON)⟩ now).2 = [])
    ∧ (renewDue s now = true →
        commitAction ⟨opts, b, .live s, ek, some (hash s.toJSON)⟩ now
          = .saveReason "renew") := by
  have hssn : shouldSaveSession opts (some (hash s.toJSON)) s now
      = (if renewDue s now then "renew" else "") := by
    simp only [shouldSaveSession, hForce, Bool.false_eq_true, if_false,
      hRolling, hRenew, if_true]
    have h2 : ¬(some (hash s.toJSON) = none ∧ keysLen s.toJSON = 0) := by
      intro hcon
      exact Option.noConfusion hcon.1
    have h3 : ¬(some (hash s.toJSON) ≠ some (hash s.toJSON)) := by
      intro hcon
      exact hcon rfl
    simp [h2, h3]
  have hrd : renewDue s now = true
      ↔ ∃ e m : Int, s.sExpire = some e ∧ s.sMaxAge = some m
          ∧ e ≠ 0 ∧ m ≠ 0 ∧ 2 * (e - now) < m := by
    constructor
    · intro hdue
      cases he : s.sExpire with
      | none => simp [renewDue, Session.maxAge, he] at hdue
      | some e =>
        cases hm : s.sMaxAge with
        | none => simp [renewDue, Session.maxAge, he, hm] at hdue
        | some m =>
          simp only [renewDue, Session.maxAge, he, hm, Bool.and_eq_true,
            bne_iff_ne, ne_eq, decide_eq_true_eq] at hdue
          exact ⟨e, m, rfl, rfl, hdue.1.1, hdue.1.2, hdue.2⟩
    · rintro ⟨e, m, he, hm, hne, hmne, hlt⟩
      simp [renewDue, Session.maxAge, he, hm, hne, hmne, hlt]
  refine ⟨?_, ?_, ?_⟩
  · rw [hssn]
    constructor
    · intro heq
      by_cases hdue : renewDue s now
      · exact hrd.mp hdue
      · rw [if_neg hdue] at heq
        exact absurd heq (by simp)
    · intro hex
      rw [if_pos (hrd.mpr hex)]
  · intro hdue
    simp only [commit, hssn, hdue, Bool.false_eq_true, if_false]
    rfl
  · intro hdue
    simp only [commitAction, hssn, hdue, if_true]
    rfl

/-- C8 witness: an unmutated session two units from a ten-unit expiry
renews; one eight units away does not commit anything. -/
theorem renew_decision_witness :
    (shouldSaveSession
        ⟨"sess", .num 10, false, true, "g", none, none, fun _ => .syntaxErr⟩
        (some (hash (Session.mk [] (some 12) (some 10) false false).toJSON))
        ⟨[], some 12, some 10, false, false⟩ 10 = "renew")
    ∧ ((commit ⟨⟨"sess", .num 10, false, true, "g", none, none,
          fun _ => .syntaxErr⟩, false,
        .live ⟨[], some 12, some 10, false, false⟩, none,
        some (hash (Session.mk [] (some 12) (some 10) false false).toJSON)⟩
        4).2 = []) := by
  constructor
  · exact (renew_decision
      ⟨"sess", .num 10, false, true, "g", none, none, fun _ => .syntaxErr⟩
      ⟨[], some 12, some 10, false, false⟩ false none 10 rfl rfl rfl).1.mpr
      ⟨12, 10, rfl, rfl, by norm_num, by norm_num, by norm_num⟩
  · exact (renew_decision
      ⟨"sess", .num 10, false, true, "g", none, none, fun _ => .syntaxErr⟩
      ⟨[], some 12, some 10, false, false⟩ false none 4 rfl rfl rfl).2.1
      (by rfl)

end ContextSession

namespace ContextSession

/-- C9: in store mode (a truthy external key exists) every save issues
exactly a `store.set` of the stamped payload whose third argument is the
numeric effective max-age plus exactly 10000 ms, with options
`{changed, rolling}`, followed by one cookie write of the unchanged
external key — never the payload — as the transport cookie value. -/
theorem save_store_mode (cs : CS) (s : Session) (changed : Bool) (now : Int)
    (k : String) (hk : cs.externalKey = some k) (hne : k ≠ "") :
    (∀ m : Int, effMaxAge cs.opts.maxAge = .num m →
      (save cs s changed now).2
        = [.storeSet k (savePayload (.num m) s.toJSON now)
             (.num (m + 10000)) changed cs.opts.rolling,
           .cookieSet cs.opts.key (.keyVal k)])
    ∧ (∃ (j : SessJSON) (ttl : StoreTTL),
        (save cs s changed now).2
          = [.storeSet k j ttl changed cs.opts.rolling,
             .cookieSet cs.opts.key (.keyVal k)]) := by
  have hkb : (k != "") = true := by simp [hne]
  have hsave : (save cs s changed now).2
      = [.storeSet k (savePayload (effMaxAge cs.opts.maxAge) s.toJSON now)
           (storeTTL (effMaxAge cs.opts.maxAge)) changed cs.opts.rolling,
         .cookieSet cs.opts.key (.keyVal k)] := by
    rw [show save cs s changed now =
        (let json := s.toJSON
         let ma := effMaxAge cs.opts.maxAge
         let json2 := savePayload ma json now
         let opts2 := saveOpts ma cs.opts
         let cs2 := { cs with opts := opts2 }
         match cs.externalKey with
         | some k2 =>
           if k2 != "" then
             (cs2, [.storeSet k2 json2 (storeTTL ma) changed cs.opts.rolling,
                    .cookieSet cs.opts.key (.keyVal k2)])
           else
             (cs2, [.cookieSet cs.opts.key (.encoded json2)])
         | none =>
           (cs2, [.cookieSet cs.opts.key (.encoded json2)]))
      from rfl, hk]
    simp only [hkb, if_true]
  constructor
  · intro m hm
    rw [hsave, hm]
    rfl
  · exact ⟨savePayload (effMaxAge cs.opts.maxAge) s.toJSON now,
      storeTTL (effMaxAge cs.opts.maxAge), hsave⟩

/-- C9 witness: with a two-second configured max-age the store TTL is
12000 ms and the cookie carries the key. -/
theorem save_store_mode_witness :
    (save ⟨⟨"sess", .num 2000, true, false, "g", none, none,
        fun _ => .syntaxErr⟩, true, .unset, some "k5", none⟩
      ⟨[("a", .jnum 1)], none, none, false, false⟩ true 10).2
    = [.storeSet "k5" ⟨[("a", .jnum 1)], some 2010, some 2000⟩
         (.num 12000) true true,
       .cookieSet "sess" (.keyVal "k5")] :=
  (save_store_mode ⟨⟨"sess", .num 2000, true, false, "g", none, none,
      fun _ => .syntaxErr⟩, true, .unset, some "k5", none⟩
    ⟨[("a", .jnum 1)], none, none, false, false⟩ true 10 "k5" rfl (by simp)).1
    2000 rfl

/-- C10: when the configured max-age is the `"session"` sentinel, `save`
mutates the shared configuration object, leaving `opts.maxAge` set to
`undefined` for every subsequent operation; in every other case `save`
returns the configuration unchanged. -/
theorem save_opts_mutation (cs : CS) (s : Session) (changed : Bool)
    (now : Int) :
    (cs.opts.maxAge = .sessionSentinel →
      ((save cs s changed now).1).opts = { cs.opts with maxAge := .unset })
    ∧ (cs.opts.maxAge ≠ .sessionSentinel →
      ((save cs s changed now).1).opts = cs.opts) := by
  have hfst : (save cs s changed now).1
      = { cs with opts := saveOpts (effMaxAge cs.opts.maxAge) cs.opts } := by
    rw [show save cs s changed now =
        (let json := s.toJSON
         let ma := effMaxAge cs.opts.maxAge
         let json2 := savePayload ma json now
         let opts2 := saveOpts ma cs.opts
         let cs2 := { cs with opts := opts2 }
         match cs.externalKey with
         | some k2 =>
           if k2 != "" then
             (cs2, [.storeSet k2 json2 (storeTTL ma) changed cs.opts.rolling,
                    .cookieSet cs.opts.key (.keyVal k2)])
           else
             (cs2, [.cookieSet cs.opts.key (.encoded json2)])
         | none =>
           (cs2, [.cookieSet cs.opts.key (.encoded json2)]))
      from rfl]
    cases cs.externalKey with
    | none => rfl
    | some k2 =>
      by_cases hk2 : (k2 != "") = true
      · simp only [hk2, if_true]
      · simp only [hk2, if_false, Bool.false_eq_true]
  constructor
  · intro hsent
    rw [hfst]
    simp only [saveOpts, hsent, effMaxAge]
  · intro hnot
    rw [hfst]
    cases hma : cs.opts.maxAge with
    | num n =>
      by_cases hn : (n != 0) = true
      · simp [saveOpts, effMaxAge, hn]
      · simp [saveOpts, effMaxAge, hn]
    | sessionSentinel => exact absurd hma hnot
    | unset => simp [saveOpts, effMaxAge]

/-- C10 witness: the sentinel erases the configured max-age, and a numeric
configuration survives `save` untouched. -/
theorem save_opts_mutation_witness :
    (((save ⟨⟨"sess", .sessionSentinel, false, false, "g", none, none,
        fun _ => .syntaxErr⟩, false, .unset, none, none⟩
      sessionNew false 0).1).opts.maxAge = .unset)
    ∧ (((save ⟨⟨"sess", .num 250, false, false, "g", none, none,
        fun _ => .syntaxErr⟩, false, .unset, none, none⟩
      sessionNew false 0).1).opts.maxAge = .num 250) := by
  constructor
  · rw [(save_opts_mutation ⟨⟨"sess", .sessionSentinel, false, false, "g",
      none, none, fun _ => .syntaxErr⟩, false, .unset, none, none⟩
      sessionNew false 0).1 rfl]
  · rw [(save_opts_mutation ⟨⟨"sess", .num 250, false, false, "g",
      none, none, fun _ => .syntaxErr⟩, false, .unset, none, none⟩
      sessionNew false 0).2 (by simp)]

end ContextSession
